import Mathlib

/-!
Shallow embedding of `main.go` of the guardduty-to-slack integration:
the config validator, the finding model and parser, the severity
classifier, the notifier (message construction), the dispatcher, and the
batch sample replay loop.  Numeric severities are modelled as rationals;
the classifier only compares the score against the integer constants
4, 7, 9 and 10, and those comparisons agree between float64 and ℚ for
every value the claims mention.  Raw byte payloads are modelled as
`Option Json`: `none` stands for bytes that are not valid JSON, `some v`
for bytes whose JSON value is `v`.
-/

namespace GuardDuty

/-- JSON values, as decoded by Go's `encoding/json`. -/
inductive Json where
  | null : Json
  | bool (b : Bool) : Json
  | num (q : ℚ) : Json
  | str (s : String) : Json
  | arr (elems : List Json) : Json
  | obj (fields : List (String × Json)) : Json

/-- Key lookup in a JSON object.  Go's decoder processes the keys in
order, a later duplicate overwriting an earlier one, so the LAST binding
of the key wins. -/
def jsonLookup (fields : List (String × Json)) (key : String) : Option Json :=
  match fields with
  | [] => none
  | (k, v) :: rest =>
    match jsonLookup rest key with
    | some w => some w
    | none => if k = key then some v else none

/-- Decoding of one `string`-typed struct field by `json.Unmarshal`:
an absent key or a JSON null leaves the zero value `""`; a JSON string
is taken verbatim; any other JSON value is a type error. -/
def decodeStringField (fields : List (String × Json)) (key : String) :
    Except String String :=
  match jsonLookup fields key with
  | none => .ok ""
  | some .null => .ok ""
  | some (.str s) => .ok s
  | some _ =>
    .error ("json: cannot unmarshal value into Go struct field Finding."
      ++ key ++ " of type string")

/-- Decoding of one `float64`-typed struct field by `json.Unmarshal`:
an absent key or a JSON null leaves the zero value `0`; a JSON number is
taken; any other JSON value is a type error. -/
def decodeNumberField (fields : List (String × Json)) (key : String) :
    Except String ℚ :=
  match jsonLookup fields key with
  | none => .ok 0
  | some .null => .ok 0
  | some (.num q) => .ok q
  | some _ =>
    .error ("json: cannot unmarshal value into Go struct field Finding."
      ++ key ++ " of type float64")

/-- `type SeverityLevel string`. -/
abbrev SeverityLevel := String

def SeverityUnknown : SeverityLevel := "unknown"
def SeverityLow : SeverityLevel := "low"
def SeverityMedium : SeverityLevel := "medium"
def SeverityHigh : SeverityLevel := "high"
def SeverityCritical : SeverityLevel := "critical"

/-- The `Finding` struct.  `SeverityLabel`, `ConsoleURL` (json tag `-`)
and `Raw` are not decoded from the payload; they are filled in by
`ParseFindingData`. -/
structure Finding where
  ID : String
  AccountID : String
  Region : String
  Title : String
  Description : String
  Severity : ℚ
  SeverityLabel : SeverityLevel
  ConsoleURL : String
  Raw : Option Json

/-- `func (f *Finding) ToSeverityLevel() SeverityLevel` — the first
matching case of the Go `switch` wins. -/
def ToSeverityLevel (severity : ℚ) : SeverityLevel :=
  if severity < 4 then SeverityLow
  else if severity < 7 then SeverityMedium
  else if severity < 9 then SeverityHigh
  else if severity ≤ 10 then SeverityCritical
  else SeverityUnknown

/-- `json.Unmarshal(raw, &f)` for `f` a zero-valued `Finding`.  Invalid
bytes (`none`) are a syntax error; a JSON `null` leaves the struct at its
zero value without error; a JSON object decodes the six tagged fields,
each absent key keeping its zero value; any other top-level JSON value
is a type error. -/
def unmarshalFinding (raw : Option Json) : Except String Finding :=
  match raw with
  | none => .error "unexpected end of JSON input"
  | some .null =>
    .ok { ID := "", AccountID := "", Region := "", Title := "",
          Description := "", Severity := 0, SeverityLabel := "",
          ConsoleURL := "", Raw := none }
  | some (.obj fields) =>
    match decodeStringField fields "id" with
    | .error e => .error e
    | .ok id =>
    match decodeStringField fields "accountId" with
    | .error e => .error e
    | .ok accountId =>
    match decodeStringField fields "region" with
    | .error e => .error e
    | .ok region =>
    match decodeStringField fields "title" with
    | .error e => .error e
    | .ok title =>
    match decodeStringField fields "description" with
    | .error e => .error e
    | .ok description =>
    match decodeNumberField fields "severity" with
    | .error e => .error e
    | .ok severity =>
      .ok { ID := id, AccountID := accountId, Region := region,
            Title := title, Description := description,
            Severity := severity, SeverityLabel := "",
            ConsoleURL := "", Raw := none }
  | some _ =>
    .error "json: cannot unmarshal value into Go value of type main.Finding"

/-- The `Config` struct. -/
structure Config where
  DebugEnabled : Bool
  AwsConsoleURL : String
  SlackToken : String
  SlackChannel : String

/-- `func BuildConfig() (Config, error)`.  The environment is a total map
from variable names to values, `""` standing for an unset variable, as
`os.Getenv` reports it. -/
def BuildConfig (env : String → String) : Except String Config :=
  let cfg : Config :=
    { DebugEnabled := env "APP_DEBUG_ENABLED" == "true"
      AwsConsoleURL := env "APP_AWS_CONSOLE_URL"
      SlackToken := env "APP_SLACK_TOKEN"
      SlackChannel := env "APP_SLACK_CHANNEL" }
  if cfg.SlackToken = "" then .error "missing env var APP_SLACK_TOKEN"
  else if cfg.SlackChannel = "" then .error "missing env var APP_SLACK_CHANNEL"
  else if cfg.AwsConsoleURL = "" then .error "missing env var APP_AWS_CONSOLE_URL"
  else .ok cfg

/-- `func (a *App) ParseFindingData(raw json.RawMessage) (Finding, error)`:
unmarshal, then fill in the console URL (the `fmt.Sprintf` template),
the retained raw payload and the severity label, in that order. -/
def ParseFindingData (cfg : Config) (raw : Option Json) : Except String Finding :=
  match unmarshalFinding raw with
  | .error e => .error e
  | .ok f =>
    let f := { f with ConsoleURL :=
      cfg.AwsConsoleURL ++ "/guardduty/home?region=" ++ f.Region
        ++ "#/findings?&macros=current&fId=" ++ f.ID }
    let f := { f with Raw := raw }
    let f := { f with SeverityLabel := ToSeverityLevel f.Severity }
    .ok f

/-- `slack.TextBlockObject` as constructed by `slack.NewTextBlockObject`. -/
structure TextBlockObject where
  Kind : String
  Text : String
  Emoji : Bool
  Verbatim : Bool

/-- `slack.NewTextBlockObject(elementType, text, emoji, verbatim)`. -/
def NewTextBlockObject (elementType text : String) (emoji verbatim : Bool) :
    TextBlockObject :=
  { Kind := elementType, Text := text, Emoji := emoji, Verbatim := verbatim }

/-- `slack.ButtonBlockElement` — the fields `CreateThread` uses. -/
structure ButtonBlockElement where
  ActionID : String
  Value : String
  Text : TextBlockObject
  URL : String

/-- `slack.NewButtonBlockElement(actionID, value, text)` — the URL starts
empty and is set by assignment afterwards. -/
def NewButtonBlockElement (actionID value : String) (text : TextBlockObject) :
    ButtonBlockElement :=
  { ActionID := actionID, Value := value, Text := text, URL := "" }

/-- Slack layout blocks, restricted to the kinds `CreateThread` builds. -/
inductive Block where
  | headerBlock (text : TextBlockObject) : Block
  | sectionBlock (text : Option TextBlockObject)
      (fields : List TextBlockObject) : Block
  | dividerBlock : Block
  | actionBlock (blockID : String) (elements : List ButtonBlockElement) : Block

/-- `slack.NewHeaderBlock(text)`. -/
def NewHeaderBlock (text : TextBlockObject) : Block := .headerBlock text

/-- `slack.NewSectionBlock(text, fields, accessory)` — `CreateThread`
always passes a nil accessory, so it is omitted. -/
def NewSectionBlock (text : Option TextBlockObject)
    (fields : List TextBlockObject) : Block := .sectionBlock text fields

/-- `slack.NewDividerBlock()`. -/
def NewDividerBlock : Block := .dividerBlock

/-- `slack.NewActionBlock(blockID, elements...)`. -/
def NewActionBlock (blockID : String) (elements : List ButtonBlockElement) :
    Block := .actionBlock blockID elements

/-- One call to `client.PostMessage`: destination channel, fallback text
(`slack.MsgOptionText`) and ordered block list (`slack.MsgOptionBlocks`). -/
structure Message where
  Channel : String
  Text : String
  Blocks : List Block

/-- The message `CreateThread` constructs from a finding: header,
details section, description section, divider, actions block. -/
def CreateThreadMessage (cfg : Config) (f : Finding) : Message :=
  let header := NewHeaderBlock (NewTextBlockObject "plain_text" f.Title true false)
  let fields := [
    NewTextBlockObject "mrkdwn" ("*Severity:* " ++ f.SeverityLabel) false false,
    NewTextBlockObject "mrkdwn" ("*Region:* " ++ f.Region) false false,
    NewTextBlockObject "mrkdwn" ("*Account:* " ++ f.AccountID) false false]
  let details := NewSectionBlock none fields
  let desc := NewSectionBlock
    (some (NewTextBlockObject "plain_text" f.Description false false)) []
  let btn := NewButtonBlockElement "view" ""
    (NewTextBlockObject "plain_text" "View in Console" false false)
  let btn := { btn with URL := f.ConsoleURL }
  let actions := NewActionBlock "actions" [btn]
  { Channel := cfg.SlackChannel
    Text := f.Title
    Blocks := [header, details, desc, NewDividerBlock, actions] }

/-- The chat client is modelled by its observable behaviour: the delivery
outcome of posting a message — `none` for a nil error, `some e` for a
failed `PostMessage` call. -/
abbrev ChatClient := Message → Option String

/-- `func (a *App) CreateThread(f Finding) error`, together with the list
of messages the call hands to `PostMessage` (always exactly one). -/
def CreateThread (cfg : Config) (post : ChatClient) (f : Finding) :
    Option String × List Message :=
  (post (CreateThreadMessage cfg f), [CreateThreadMessage cfg f])

/-- `func (a *App) Process(raw json.RawMessage) error`, observed as a
triple: the returned error (`none` for nil), the messages posted to the
chat client, and the debug log entries (finding id and numeric severity)
emitted along the way. -/
def Process (cfg : Config) (post : ChatClient) (raw : Option Json) :
    Option String × List Message × List (String × ℚ) :=
  match ParseFindingData cfg raw with
  | .error e => (some e, [], [])
  | .ok f =>
    let logs := if cfg.DebugEnabled then [(f.ID, f.Severity)] else []
    let r := CreateThread cfg post f
    (r.1, r.2, logs)

/-- An `events.CloudWatchEvent`, restricted to the fields
`ProcessSamples` reads: the event id and the detail payload. -/
structure CloudWatchEvent where
  ID : String
  Detail : Option Json

/-- The loop of `func ProcessSamples(a *App) error` over an already
decoded list of sample events: each detail goes through `Process` in
order; the first failure stops the loop and is wrapped with the failing
event's id (`fmt.Errorf("process id=%s: %w", e.ID, err)`).  The second
component collects the messages posted during the run. -/
def ProcessSamples (cfg : Config) (post : ChatClient) :
    List CloudWatchEvent → Option String × List Message
  | [] => (none, [])
  | e :: rest =>
    let r := Process cfg post e.Detail
    match r.1 with
    | some err => (some ("process id=" ++ e.ID ++ ": " ++ err), r.2.1)
    | none =>
      let s := ProcessSamples cfg post rest
      (s.1, r.2.1 ++ s.2)

/-- `true` exactly when the `Except` value is `ok`. -/
def exceptOk {α : Type} (r : Except String α) : Bool :=
  match r with
  | .ok _ => true
  | .error _ => false

theorem exceptOk_iff {α : Type} (r : Except String α) :
    exceptOk r = true ↔ ∃ v, r = .ok v := by
  cases r <;> simp [exceptOk]

/-- A concrete valid configuration used to instantiate theorems. -/
def sampleConfig : Config :=
  { DebugEnabled := false
    AwsConsoleURL := "https://us-east-1.console.aws.amazon.com"
    SlackToken := "xoxb-token"
    SlackChannel := "C0001" }

/-- A chat client whose deliveries always succeed. -/
def okClient : ChatClient := fun _ => none

/-- A concrete well-formed finding payload. -/
def samplePayload : Json :=
  Json.obj [("id", Json.str "abc123"),
    ("accountId", Json.str "111122223333"),
    ("region", Json.str "us-east-1"),
    ("title", Json.str "Recon activity"),
    ("description", Json.str "Unusual API calls were observed."),
    ("severity", Json.num 5)]

/-- C1 counterexample: the classifier maps the negative score `-1` to
`low`, not to `unknown` — the first branch `severity < 4` of the Go
switch catches every negative value. -/
theorem toSeverityLevel_neg_one_is_low :
    ToSeverityLevel (-1) = SeverityLow ∧
    ToSeverityLevel (-1) ≠ SeverityUnknown := by
  have h : ToSeverityLevel (-1) = SeverityLow := by
    unfold ToSeverityLevel
    norm_num
  refine ⟨h, ?_⟩
  rw [h]
  decide

/-- C1 (amended): `ToSeverityLevel` realises the boundary table
`[0,4) → low`, `[4,7) → medium`, `[7,9) → high`, `[9,10] → critical`
(inclusive at exactly 10) and maps every score strictly above 10 to
`unknown`; negative scores, however, fall into `low` (the first branch
`severity < 4` catches them), so `classify(-1) = low` while
`classify(10.0001) = unknown`, and the edge values 0, 4, 7, 9, 10 map to
low, medium, high, critical, critical. -/
theorem toSeverityLevel_boundaries (s : ℚ) :
    (s < 4 → ToSeverityLevel s = SeverityLow) ∧
    (4 ≤ s → s < 7 → ToSeverityLevel s = SeverityMedium) ∧
    (7 ≤ s → s < 9 → ToSeverityLevel s = SeverityHigh) ∧
    (9 ≤ s → s ≤ 10 → ToSeverityLevel s = SeverityCritical) ∧
    (10 < s → ToSeverityLevel s = SeverityUnknown) ∧
    ToSeverityLevel 0 = SeverityLow ∧
    ToSeverityLevel 4 = SeverityMedium ∧
    ToSeverityLevel 7 = SeverityHigh ∧
    ToSeverityLevel 9 = SeverityCritical ∧
    ToSeverityLevel 10 = SeverityCritical ∧
    ToSeverityLevel (100001 / 10000) = SeverityUnknown ∧
    ToSeverityLevel (-1) = SeverityLow := by
  unfold ToSeverityLevel
  refine ⟨?_, ?_, ?_, ?_, ?_, ?_, ?_, ?_, ?_, ?_, ?_, ?_⟩ <;>
    intros <;> split_ifs <;> first | rfl | linarith

theorem toSeverityLevel_boundaries_witness :
    ToSeverityLevel 2 = SeverityLow ∧
    ToSeverityLevel 5 = SeverityMedium ∧
    ToSeverityLevel 8 = SeverityHigh ∧
    ToSeverityLevel (19 / 2) = SeverityCritical ∧
    ToSeverityLevel 11 = SeverityUnknown :=
  ⟨(toSeverityLevel_boundaries 2).1 (by norm_num),
   (toSeverityLevel_boundaries 5).2.1 (by norm_num) (by norm_num),
   (toSeverityLevel_boundaries 8).2.2.1 (by norm_num) (by norm_num),
   (toSeverityLevel_boundaries (19 / 2)).2.2.2.1 (by norm_num) (by norm_num),
   (toSeverityLevel_boundaries 11).2.2.2.2.1 (by norm_num)⟩

/-- C5: `BuildConfig` succeeds exactly when the Slack token, the Slack
channel and the console base URL are all non-empty; otherwise it reports
the first missing variable in the fixed order token, channel, URL; the
debug variable is optional, its absence never causes an error and leaves
the flag disabled. -/
theorem buildConfig_spec (env : String → String) :
    ((∃ cfg, BuildConfig env = .ok cfg) ↔
      (env "APP_SLACK_TOKEN" ≠ "" ∧ env "APP_SLACK_CHANNEL" ≠ "" ∧
        env "APP_AWS_CONSOLE_URL" ≠ "")) ∧
    (env "APP_SLACK_TOKEN" = "" →
      BuildConfig env = .error "missing env var APP_SLACK_TOKEN") ∧
    (env "APP_SLACK_TOKEN" ≠ "" → env "APP_SLACK_CHANNEL" = "" →
      BuildConfig env = .error "missing env var APP_SLACK_CHANNEL") ∧
    (env "APP_SLACK_TOKEN" ≠ "" → env "APP_SLACK_CHANNEL" ≠ "" →
      env "APP_AWS_CONSOLE_URL" = "" →
      BuildConfig env = .error "missing env var APP_AWS_CONSOLE_URL") ∧
    (env "APP_DEBUG_ENABLED" = "" → ∀ cfg, BuildConfig env = .ok cfg →
      cfg.DebugEnabled = false) := by
  simp only [BuildConfig]
  split_ifs with h1 h2 h3 <;>
    refine ⟨?_, ?_, ?_, ?_, ?_⟩ <;> simp_all

theorem buildConfig_spec_witness :
    BuildConfig (fun k => if k = "APP_SLACK_CHANNEL" then "" else "x")
      = .error "missing env var APP_SLACK_CHANNEL" :=
  (buildConfig_spec
    (fun k => if k = "APP_SLACK_CHANNEL" then "" else "x")).2.2.1
    (by decide) (by decide)

/-- C10: a successfully built config has the debug flag enabled iff the
debug variable's value is exactly the string `"true"`, and the success
or failure of `BuildConfig` never depends on any variable other than the
three required ones — in particular no value of the debug variable can
cause an error. -/
theorem buildConfig_debug (env : String → String) :
    (∀ cfg, BuildConfig env = .ok cfg →
      (cfg.DebugEnabled = (env "APP_DEBUG_ENABLED" == "true") ∧
        (cfg.DebugEnabled = true ↔ env "APP_DEBUG_ENABLED" = "true"))) ∧
    (∀ env₂ : String → String,
      env₂ "APP_SLACK_TOKEN" = env "APP_SLACK_TOKEN" →
      env₂ "APP_SLACK_CHANNEL" = env "APP_SLACK_CHANNEL" →
      env₂ "APP_AWS_CONSOLE_URL" = env "APP_AWS_CONSOLE_URL" →
      exceptOk (BuildConfig env₂) = exceptOk (BuildConfig env)) := by
  constructor
  · intro cfg hcfg
    simp only [BuildConfig] at hcfg
    split_ifs at hcfg
    have hc : cfg.DebugEnabled = (env "APP_DEBUG_ENABLED" == "true") := by
      cases hcfg
      rfl
    refine ⟨hc, ?_⟩
    rw [hc]
    simp
  · intro env₂ ht hc hu
    simp only [BuildConfig, ht, hc, hu]
    split_ifs <;> rfl

theorem buildConfig_debug_witness :
    ({ DebugEnabled := false, AwsConsoleURL := "x", SlackToken := "x",
       SlackChannel := "x" } : Config).DebugEnabled
      = ((fun k => if k = "APP_DEBUG_ENABLED" then "TRUE" else "x")
          "APP_DEBUG_ENABLED" == "true") :=
  ((buildConfig_debug
    (fun k => if k = "APP_DEBUG_ENABLED" then "TRUE" else "x")).1
    { DebugEnabled := false, AwsConsoleURL := "x", SlackToken := "x",
      SlackChannel := "x" } rfl).1

/-- Shape of every successful parse: the finding is the unmarshalled
struct with the console URL, the retained raw payload and the severity
label filled in. -/
theorem parseFindingData_ok (cfg : Config) (raw : Option Json) (f : Finding)
    (h : ParseFindingData cfg raw = .ok f) :
    ∃ f0, unmarshalFinding raw = .ok f0 ∧
      f = { f0 with
        ConsoleURL := cfg.AwsConsoleURL ++ "/guardduty/home?region="
          ++ f0.Region ++ "#/findings?&macros=current&fId=" ++ f0.ID
        Raw := raw
        SeverityLabel := ToSeverityLevel f0.Severity } := by
  unfold ParseFindingData at h
  cases hu : unmarshalFinding raw with
  | error e => rw [hu] at h; exact absurd h (by simp)
  | ok f0 =>
    rw [hu] at h
    refine ⟨f0, rfl, ?_⟩
    cases h
    rfl

/-- C4: every finding a successful parse returns carries the console URL
obtained by interpolating the configured base URL, the finding's region
and its id into the fixed template; in particular the sample base URL,
region `us-east-1` and id `abc123` give exactly the expected literal. -/
theorem consoleUrl_template :
    (∀ (cfg : Config) (raw : Option Json) (f : Finding),
      ParseFindingData cfg raw = .ok f →
      f.ConsoleURL = cfg.AwsConsoleURL ++ "/guardduty/home?region="
        ++ f.Region ++ "#/findings?&macros=current&fId=" ++ f.ID) ∧
    (∃ f, ParseFindingData sampleConfig (some samplePayload) = .ok f ∧
      f.ConsoleURL =
        "https://us-east-1.console.aws.amazon.com/guardduty/home?region=us-east-1#/findings?&macros=current&fId=abc123") := by
  constructor
  · intro cfg raw f h
    obtain ⟨f0, -, hf⟩ := parseFindingData_ok cfg raw f h
    subst hf
    rfl
  · exact ⟨_, rfl, rfl⟩

theorem consoleUrl_template_witness :
    ∃ f, ParseFindingData sampleConfig (some samplePayload) = .ok f ∧
      f.ConsoleURL = sampleConfig.AwsConsoleURL ++ "/guardduty/home?region="
        ++ f.Region ++ "#/findings?&macros=current&fId=" ++ f.ID := by
  refine ⟨_, rfl, ?_⟩
  exact consoleUrl_template.1 sampleConfig (some samplePayload) _ rfl

/-- C7: every finding a successful parse returns has its severity label
equal to the classifier applied to its numeric severity and its console
URL equal to the template instantiated with the configured base URL, its
region and its id — both derived fields are populated consistently. -/
theorem parse_invariant (cfg : Config) (raw : Option Json) (f : Finding)
    (h : ParseFindingData cfg raw = .ok f) :
    f.SeverityLabel = ToSeverityLevel f.Severity ∧
    f.ConsoleURL = cfg.AwsConsoleURL ++ "/guardduty/home?region="
      ++ f.Region ++ "#/findings?&macros=current&fId=" ++ f.ID := by
  obtain ⟨f0, -, hf⟩ := parseFindingData_ok cfg raw f h
  subst hf
  exact ⟨rfl, rfl⟩

theorem parse_invariant_witness :
    ∃ f, ParseFindingData sampleConfig (some samplePayload) = .ok f ∧
      f.SeverityLabel = ToSeverityLevel f.Severity := by
  refine ⟨_, rfl, ?_⟩
  exact (parse_invariant sampleConfig (some samplePayload) _ rfl).1

/-- C3: the dispatcher runs parse then notify: a parse error is returned
as is with no message posted and no log emitted, and a successful parse
posts exactly the one constructed message and returns the chat client's
delivery result unchanged. -/
theorem process_spec (cfg : Config) (post : ChatClient) (raw : Option Json) :
    (∀ e, ParseFindingData cfg raw = .error e →
      Process cfg post raw = (some e, [], [])) ∧
    (∀ f, ParseFindingData cfg raw = .ok f →
      (Process cfg post raw).1 = post (CreateThreadMessage cfg f) ∧
      (Process cfg post raw).2.1 = [CreateThreadMessage cfg f]) := by
  constructor
  · intro e he
    unfold Process
    rw [he]
  · intro f hf
    unfold Process
    rw [hf]
    exact ⟨rfl, rfl⟩

theorem process_spec_witness :
    Process sampleConfig okClient none
      = (some "unexpected end of JSON input", [], []) :=
  (process_spec sampleConfig okClient none).1
    "unexpected end of JSON input" rfl

/-- C8: flipping only the debug flag of the configuration never changes
the dispatcher's returned error nor the messages posted — debug logging
is observational only. -/
theorem process_debug_noninterference (cfg : Config) (d : Bool)
    (post : ChatClient) (raw : Option Json) :
    (Process { cfg with DebugEnabled := d } post raw).1
      = (Process cfg post raw).1 ∧
    (Process { cfg with DebugEnabled := d } post raw).2.1
      = (Process cfg post raw).2.1 := by
  have hp : ParseFindingData { cfg with DebugEnabled := d } raw
      = ParseFindingData cfg raw := by
    unfold ParseFindingData
    cases unmarshalFinding raw <;> rfl
  unfold Process
  rw [hp]
  cases ParseFindingData cfg raw <;> exact ⟨rfl, rfl⟩

/-- A concrete valid JSON payload with every required field except `id`. -/
def payloadNoId : Json :=
  Json.obj [("accountId", Json.str "111122223333"),
    ("region", Json.str "us-east-1"),
    ("title", Json.str "Recon activity"),
    ("description", Json.str "Unusual API calls were observed."),
    ("severity", Json.num 8)]

/-- C2 counterexample: a valid JSON payload lacking the `id` field
parses WITHOUT error — `json.Unmarshal` leaves an absent field at its
zero value — and the dispatcher then posts one chat message, so the
notifier is invoked for that payload. -/
theorem parse_missing_id_no_error :
    exceptOk (ParseFindingData sampleConfig (some payloadNoId)) = true ∧
    (Process sampleConfig okClient (some payloadNoId)).2.1.length = 1 :=
  ⟨rfl, rfl⟩

/-- C2 (amended): `ParseFindingData` errors only on raw bytes that are
not valid JSON, a top-level value of the wrong kind, or a present field
of the wrong type.  A valid JSON object in which every required key is
absent or well-typed parses successfully — an absent key is left at its
Go zero value, so a payload with no `id` yields a finding with `ID = ""`
— and the notifier is then invoked with exactly one message. -/
theorem parse_tolerates_missing_fields (cfg : Config) (post : ChatClient)
    (fields : List (String × Json))
    (h1 : exceptOk (decodeStringField fields "id") = true)
    (h2 : exceptOk (decodeStringField fields "accountId") = true)
    (h3 : exceptOk (decodeStringField fields "region") = true)
    (h4 : exceptOk (decodeStringField fields "title") = true)
    (h5 : exceptOk (decodeStringField fields "description") = true)
    (h6 : exceptOk (decodeNumberField fields "severity") = true) :
    exceptOk (ParseFindingData cfg (some (Json.obj fields))) = true ∧
    (jsonLookup fields "id" = none →
      ∃ f, ParseFindingData cfg (some (Json.obj fields)) = .ok f ∧
        f.ID = "") ∧
    (Process cfg post (some (Json.obj fields))).2.1.length = 1 := by
  obtain ⟨v1, hd1⟩ := (exceptOk_iff _).mp h1
  obtain ⟨v2, hd2⟩ := (exceptOk_iff _).mp h2
  obtain ⟨v3, hd3⟩ := (exceptOk_iff _).mp h3
  obtain ⟨v4, hd4⟩ := (exceptOk_iff _).mp h4
  obtain ⟨v5, hd5⟩ := (exceptOk_iff _).mp h5
  obtain ⟨v6, hd6⟩ := (exceptOk_iff _).mp h6
  have hu : unmarshalFinding (some (Json.obj fields)) =
      .ok { ID := v1, AccountID := v2, Region := v3, Title := v4,
            Description := v5, Severity := v6, SeverityLabel := "",
            ConsoleURL := "", Raw := none } := by
    simp only [unmarshalFinding, hd1, hd2, hd3, hd4, hd5, hd6]
  have hp : ParseFindingData cfg (some (Json.obj fields)) =
      .ok { ID := v1, AccountID := v2, Region := v3, Title := v4,
            Description := v5, Severity := v6,
            SeverityLabel := ToSeverityLevel v6,
            ConsoleURL := cfg.AwsConsoleURL ++ "/guardduty/home?region="
              ++ v3 ++ "#/findings?&macros=current&fId=" ++ v1,
            Raw := some (Json.obj fields) } := by
    unfold ParseFindingData
    rw [hu]
  refine ⟨?_, ?_, ?_⟩
  · rw [hp]
    rfl
  · intro hnone
    refine ⟨_, hp, ?_⟩
    have hid : decodeStringField fields "id" = .ok "" := by
      unfold decodeStringField
      rw [hnone]
    rw [hid] at hd1
    cases hd1
    rfl
  · unfold Process
    rw [hp]
    rfl

theorem parse_tolerates_missing_fields_witness :
    exceptOk (ParseFindingData sampleConfig (some (Json.obj []))) = true ∧
    (jsonLookup [] "id" = none →
      ∃ f, ParseFindingData sampleConfig (some (Json.obj [])) = .ok f ∧
        f.ID = "") ∧
    (Process sampleConfig okClient (some (Json.obj []))).2.1.length = 1 :=
  parse_tolerates_missing_fields sampleConfig okClient []
    rfl rfl rfl rfl rfl rfl

/-- C6: the notifier posts exactly one message whose block list is, in
order: a header with the finding title, a details section whose three
labelled fields are the severity label, the region and the account id,
a section with the description as plain text, a divider, and an actions
block with a single button labelled "View in Console" whose URL is the
finding's console URL. -/
theorem createThread_blocks (cfg : Config) (post : ChatClient) (f : Finding) :
    (CreateThread cfg post f).2 = [CreateThreadMessage cfg f] ∧
    (CreateThreadMessage cfg f).Blocks = [
      Block.headerBlock
        { Kind := "plain_text", Text := f.Title, Emoji := true,
          Verbatim := false },
      Block.sectionBlock none [
        { Kind := "mrkdwn", Text := "*Severity:* " ++ f.SeverityLabel,
          Emoji := false, Verbatim := false },
        { Kind := "mrkdwn", Text := "*Region:* " ++ f.Region,
          Emoji := false, Verbatim := false },
        { Kind := "mrkdwn", Text := "*Account:* " ++ f.AccountID,
          Emoji := false, Verbatim := false }],
      Block.sectionBlock
        (some { Kind := "plain_text", Text := f.Description,
                Emoji := false, Verbatim := false }) [],
      Block.dividerBlock,
      Block.actionBlock "actions" [
        { ActionID := "view", Value := "",
          Text := { Kind := "plain_text", Text := "View in Console",
                    Emoji := false, Verbatim := false },
          URL := f.ConsoleURL }]] :=
  ⟨rfl, rfl⟩

theorem processSamples_cons_error (cfg : Config) (post : ChatClient)
    (e : CloudWatchEvent) (rest : List CloudWatchEvent) (err : String)
    (h : (Process cfg post e.Detail).1 = some err) :
    ProcessSamples cfg post (e :: rest)
      = (some ("process id=" ++ e.ID ++ ": " ++ err),
         (Process cfg post e.Detail).2.1) := by
  simp only [ProcessSamples, h]

theorem processSamples_cons_ok (cfg : Config) (post : ChatClient)
    (e : CloudWatchEvent) (rest : List CloudWatchEvent)
    (h : (Process cfg post e.Detail).1 = none) :
    ProcessSamples cfg post (e :: rest)
      = ((ProcessSamples cfg post rest).1,
         (Process cfg post e.Detail).2.1
           ++ (ProcessSamples cfg post rest).2) := by
  simp only [ProcessSamples, h]

theorem processSamples_first_failure (cfg : Config) (post : ChatClient)
    (pre : List CloudWatchEvent) (e : CloudWatchEvent)
    (rest : List CloudWatchEvent) (err : String)
    (hpre : ∀ p ∈ pre, (Process cfg post p.Detail).1 = none)
    (he : (Process cfg post e.Detail).1 = some err) :
    ProcessSamples cfg post (pre ++ e :: rest)
      = (some ("process id=" ++ e.ID ++ ": " ++ err),
         pre.foldr (fun p acc => (Process cfg post p.Detail).2.1 ++ acc) []
           ++ (Process cfg post e.Detail).2.1) := by
  revert hpre
  induction pre with
  | nil =>
    intro _
    rw [List.nil_append, processSamples_cons_error cfg post e rest err he]
    simp
  | cons p ps ih =>
    intro hpre
    have hp := hpre p (List.mem_cons_self p ps)
    rw [List.cons_append, processSamples_cons_ok cfg post p (ps ++ e :: rest) hp,
        ih (fun q hq => hpre q (List.mem_cons_of_mem p hq))]
    simp

/-- C9: the batch replay feeds each sample event's detail through the
dispatcher in list order; when every call succeeds it returns success,
and otherwise it stops at the first failing event, wraps that failure
with the event's id, and posts nothing for any later event — the
messages of the run are exactly those of the successful prefix plus
those of the failing call. -/
theorem processSamples_spec (cfg : Config) (post : ChatClient)
    (evts : List CloudWatchEvent) :
    ((∀ e ∈ evts, (Process cfg post e.Detail).1 = none) →
      (ProcessSamples cfg post evts).1 = none) ∧
    (∀ (pre : List CloudWatchEvent) (e : CloudWatchEvent)
        (rest : List CloudWatchEvent) (err : String),
      evts = pre ++ e :: rest →
      (∀ p ∈ pre, (Process cfg post p.Detail).1 = none) →
      (Process cfg post e.Detail).1 = some err →
      ProcessSamples cfg post evts
        = (some ("process id=" ++ e.ID ++ ": " ++ err),
           pre.foldr (fun p acc => (Process cfg post p.Detail).2.1 ++ acc) []
             ++ (Process cfg post e.Detail).2.1)) := by
  constructor
  · induction evts with
    | nil =>
      intro _
      rfl
    | cons e rest ih =>
      intro h
      rw [processSamples_cons_ok cfg post e rest
        (h e (List.mem_cons_self e rest))]
      exact ih fun p hp => h p (List.mem_cons_of_mem e hp)
  · intro pre e rest err hev hpre he
    subst hev
    exact processSamples_first_failure cfg post pre e rest err hpre he

theorem processSamples_spec_witness :
    ProcessSamples sampleConfig okClient
      [⟨"evt-1", some samplePayload⟩, ⟨"evt-2", none⟩,
       ⟨"evt-3", some samplePayload⟩]
    = (some ("process id=" ++ "evt-2" ++ ": "
          ++ "unexpected end of JSON input"),
       [(⟨"evt-1", some samplePayload⟩ : CloudWatchEvent)].foldr
          (fun p acc => (Process sampleConfig okClient p.Detail).2.1 ++ acc) []
         ++ (Process sampleConfig okClient none).2.1) :=
  (processSamples_spec sampleConfig okClient
      [⟨"evt-1", some samplePayload⟩, ⟨"evt-2", none⟩,
       ⟨"evt-3", some samplePayload⟩]).2
    [⟨"evt-1", some samplePayload⟩] ⟨"evt-2", none⟩
    [⟨"evt-3", some samplePayload⟩] "unexpected end of JSON input"
    rfl
    (by
      intro p hp
      rw [List.mem_singleton] at hp
      subst hp
      rfl)
    rfl

end GuardDuty
